import Mathlib

/-!
Verification of the business IVR system's session/rate-limit state machine
(`src/business_ivr_system.py`, class `BusinessIVRSystem`).

Timestamps are modelled as integers (seconds).  The pseudo-random call
`random.randint(100000, 999999)` is modelled by an explicit `rand : Nat`
parameter mapped into the same range.  The two in-memory dictionaries
`verification_sessions` and `rate_limits` become total functions from phone
numbers to optional records.  TwiML voice output is not modelled: only the
class of response spoken (the `VerificationResult`) and the state effects.
-/

namespace IVR

/-- A verification session record, as stored in `verification_sessions`
(`generate_verification_code`, lines 58-63 of the source). -/
structure Session where
  code : String
  expires : Int
  attempts : Nat
  created : Int
deriving DecidableEq

/-- The mutable state of `BusinessIVRSystem.__init__`: the
`verification_sessions` and `rate_limits` dictionaries. -/
structure IVRState where
  sessions : String → Option Session
  rateLimits : String → Option Int

/-- The freshly constructed system: both dictionaries empty. -/
def initState : IVRState where
  sessions := fun _ => none
  rateLimits := fun _ => none

/-- Outcomes of `verify_code`, one per spoken response branch. -/
inductive VerificationResult where
  | NoSession
  | Expired
  | TooManyAttempts
  | Success
  | Mismatch
deriving DecidableEq

/-- `BusinessIVRSystem.check_rate_limit` (source lines 43-50).  If an entry
exists and `now - last < 300` return `false` without touching the state;
otherwise stamp `rate_limits[p] = now` and return `true`. -/
def check_rate_limit (st : IVRState) (now : Int) (p : String) :
    Bool × IVRState :=
  match st.rateLimits p with
  | some last =>
      if now - last < 300 then
        (false, st)
      else
        (true, { st with rateLimits := fun q => if q = p then some now else st.rateLimits q })
  | none =>
      (true, { st with rateLimits := fun q => if q = p then some now else st.rateLimits q })

/-- The value of `random.randint(100000, 999999)` for a given draw `rand`:
always a number in `[100000, 999999]`. -/
def genCode (rand : Nat) : Nat :=
  100000 + rand % 900000

/-- `BusinessIVRSystem.generate_verification_code` (source lines 52-66).
Unconditionally overwrites `verification_sessions[p]` with a fresh record:
`code = str(randint(100000,999999))`, `expires = now + 10 min`,
`attempts = 0`, `created = now`; returns the code. -/
def generate_verification_code (st : IVRState) (now : Int) (rand : Nat)
    (p : String) : String × IVRState :=
  let code := toString (genCode rand)
  (code,
   { st with
     sessions := fun q =>
       if q = p then
         some { code := code, expires := now + 600, attempts := 0, created := now }
       else st.sessions q })

/-- `BusinessIVRSystem.verify_code` (source lines 202-261).  Checks, in
order: missing session, expiry (`now > expires`, deleting), attempt limit
(`attempts >= 3`, deleting), then the entered code.  The source increments
`session['attempts']` before the comparison; on a match the record is then
deleted, so the increment is observable only on the mismatch branch, where
the record is kept with `attempts + 1`. -/
def verify_code (st : IVRState) (now : Int) (p : String) (entered : String) :
    VerificationResult × IVRState :=
  match st.sessions p with
  | none => (.NoSession, st)
  | some s =>
      if now > s.expires then
        (.Expired, { st with sessions := fun q => if q = p then none else st.sessions q })
      else if s.attempts ≥ 3 then
        (.TooManyAttempts, { st with sessions := fun q => if q = p then none else st.sessions q })
      else if entered = s.code then
        (.Success, { st with sessions := fun q => if q = p then none else st.sessions q })
      else
        (.Mismatch,
         { st with
           sessions := fun q =>
             if q = p then some { s with attempts := s.attempts + 1 }
             else st.sessions q })

/-- State effect of `BusinessIVRSystem.handle_incoming_call` (source lines
87-99): the only state it touches is through `check_rate_limit`; the
returned Bool is whether the call proceeds past the rate-limit gate. -/
def handle_incoming_call (st : IVRState) (now : Int) (p : String) :
    Bool × IVRState :=
  check_rate_limit st now p

/-- State effect of `BusinessIVRSystem.handle_verification_choice` for
`choice == '1'` (source lines 138-176): first `generate_verification_code`,
then the SMS dispatch whose outcome `smsOk` selects only which prompt is
spoken — both branches leave the session store as the generation left it. -/
def handle_verification_choice1 (st : IVRState) (now : Int) (rand : Nat)
    (smsOk : Bool) (p : String) : IVRState :=
  let r := generate_verification_code st now rand p
  if smsOk then r.2 else r.2

/-- One externally triggered operation on the stateful core. -/
inductive Op where
  | start (now : Int) (rand : Nat) (p : String)
  | check (now : Int) (p : String) (entered : String)

/-- Apply one operation to the state, discarding the returned value. -/
def applyOp (st : IVRState) : Op → IVRState
  | .start now rand p => (generate_verification_code st now rand p).2
  | .check now p entered => (verify_code st now p entered).2

/-- Run a sequence of operations from a state. -/
def runOps (st : IVRState) : List Op → IVRState
  | [] => st
  | op :: ops => runOps (applyOp st op) ops

/-- Every stored session has at most 3 recorded attempts. -/
def attemptsInv (st : IVRState) : Prop :=
  ∀ p s, st.sessions p = some s → s.attempts ≤ 3

/-- A rate-limit entry within the 300-second window denies the request and
leaves the state untouched. -/
theorem rl_deny (st : IVRState) (now : Int) (p : String) (last : Int)
    (h : st.rateLimits p = some last) (hlt : now - last < 300) :
    check_rate_limit st now p = (false, st) := by
  simp [check_rate_limit, h, hlt]

/-- With no entry in the window, the request is allowed and stamped. -/
theorem rl_allow (st : IVRState) (now : Int) (p : String)
    (h : ∀ last, st.rateLimits p = some last → ¬ now - last < 300) :
    (check_rate_limit st now p).1 = true ∧
    (check_rate_limit st now p).2.rateLimits p = some now := by
  cases hrl : st.rateLimits p with
  | none => simp [check_rate_limit, hrl]
  | some last => simp [check_rate_limit, hrl, h last hrl]

/-- Whenever the rate limiter allows, the entry is stamped with `now`. -/
theorem rl_true_stamp (st : IVRState) (now : Int) (p : String)
    (h : (check_rate_limit st now p).1 = true) :
    (check_rate_limit st now p).2.rateLimits p = some now := by
  cases hrl : st.rateLimits p with
  | none => simp [check_rate_limit, hrl]
  | some last =>
      by_cases hc : now - last < 300
      · rw [rl_deny st now p last hrl hc] at h; simp at h
      · simp [check_rate_limit, hrl, hc]

/-- `verify_code` with no stored session: `NoSession`, state unchanged. -/
theorem vc_none_step (st : IVRState) (now : Int) (p w : String)
    (hs : st.sessions p = none) :
    verify_code st now p w = (.NoSession, st) := by
  simp [verify_code, hs]

/-- `verify_code` on a live session with a wrong code: `Mismatch`, session
kept with `attempts + 1`. -/
theorem vc_mismatch_step (st : IVRState) (now : Int) (p w : String) (s : Session)
    (hs : st.sessions p = some s) (hexp : ¬ now > s.expires)
    (hatt : s.attempts < 3) (hw : w ≠ s.code) :
    verify_code st now p w =
      (.Mismatch,
       { st with sessions := fun q =>
           if q = p then some { s with attempts := s.attempts + 1 }
           else st.sessions q }) := by
  have h3 : ¬ s.attempts ≥ 3 := by omega
  simp [verify_code, hs, hexp, h3, hw]

/-- `verify_code` on an unexpired session with exhausted attempts:
`TooManyAttempts`, session deleted. -/
theorem vc_tma_step (st : IVRState) (now : Int) (p w : String) (s : Session)
    (hs : st.sessions p = some s) (hexp : ¬ now > s.expires)
    (hatt : s.attempts ≥ 3) :
    verify_code st now p w =
      (.TooManyAttempts,
       { st with sessions := fun q => if q = p then none else st.sessions q }) := by
  simp [verify_code, hs, hexp, hatt]

/-- `verify_code` on a live session with the correct code: `Success`,
session deleted. -/
theorem vc_success_step (st : IVRState) (now : Int) (p w : String) (s : Session)
    (hs : st.sessions p = some s) (hexp : ¬ now > s.expires)
    (hatt : s.attempts < 3) (hw : w = s.code) :
    verify_code st now p w =
      (.Success,
       { st with sessions := fun q => if q = p then none else st.sessions q }) := by
  have h3 : ¬ s.attempts ≥ 3 := by omega
  simp [verify_code, hs, hexp, h3, hw]

/-- One `applyOp` step preserves the attempts bound. -/
theorem attemptsInv_applyOp (st : IVRState) (op : Op) (h : attemptsInv st) :
    attemptsInv (applyOp st op) := by
  intro q s' hq
  cases op with
  | start now rand p =>
      simp only [applyOp, generate_verification_code] at hq
      by_cases hqp : q = p
      · simp [hqp] at hq
        subst hq
        exact Nat.zero_le 3
      · simp [hqp] at hq
        exact h q s' hq
  | check now p entered =>
      simp only [applyOp] at hq
      cases hst : st.sessions p with
      | none =>
          rw [vc_none_step st now p entered hst] at hq
          exact h q s' hq
      | some s =>
          by_cases hexp : now > s.expires
          · simp only [verify_code, hst, if_pos hexp] at hq
            by_cases hqp : q = p
            · simp [hqp] at hq
            · simp [hqp] at hq
              exact h q s' hq
          · by_cases hatt : s.attempts ≥ 3
            · rw [vc_tma_step st now p entered s hst hexp hatt] at hq
              by_cases hqp : q = p
              · simp [hqp] at hq
              · simp [hqp] at hq
                exact h q s' hq
            · by_cases hcode : entered = s.code
              · rw [vc_success_step st now p entered s hst hexp (by omega) hcode] at hq
                by_cases hqp : q = p
                · simp [hqp] at hq
                · simp [hqp] at hq
                  exact h q s' hq
              · rw [vc_mismatch_step st now p entered s hst hexp (by omega) hcode] at hq
                by_cases hqp : q = p
                · simp [hqp] at hq
                  subst hq
                  exact show s.attempts + 1 ≤ 3 by omega
                · simp [hqp] at hq
                  exact h q s' hq

/-- Any run of operations preserves the attempts bound. -/
theorem attemptsInv_runOps (ops : List Op) (st : IVRState) (h : attemptsInv st) :
    attemptsInv (runOps st ops) := by
  induction ops generalizing st with
  | nil => exact h
  | cons op ops ih => exact ih (applyOp st op) (attemptsInv_applyOp st op h)

/-- Claim C1: `verify_code` evaluates its conditions in a fixed order: no
session gives `NoSession` with the state unchanged; otherwise expiry is
checked first (`Expired`, session deleted), then the attempt limit
(`TooManyAttempts`, session deleted) — so neither of those outcomes
increments `attempts` (the record they leave behind is gone) — and only
then is an attempt consumed: a match deletes the session and returns
`Success`, a mismatch keeps the session with `attempts + 1` and returns
`Mismatch`. -/
theorem verify_code_order (st : IVRState) (now : Int) (p entered : String) :
    (st.sessions p = none →
      verify_code st now p entered = (.NoSession, st)) ∧
    (∀ s, st.sessions p = some s → now > s.expires →
      (verify_code st now p entered).1 = .Expired ∧
      (verify_code st now p entered).2.sessions p = none) ∧
    (∀ s, st.sessions p = some s → ¬ now > s.expires → s.attempts ≥ 3 →
      (verify_code st now p entered).1 = .TooManyAttempts ∧
      (verify_code st now p entered).2.sessions p = none) ∧
    (∀ s, st.sessions p = some s → ¬ now > s.expires → s.attempts < 3 →
      entered = s.code →
      (verify_code st now p entered).1 = .Success ∧
      (verify_code st now p entered).2.sessions p = none) ∧
    (∀ s, st.sessions p = some s → ¬ now > s.expires → s.attempts < 3 →
      entered ≠ s.code →
      (verify_code st now p entered).1 = .Mismatch ∧
      (verify_code st now p entered).2.sessions p =
        some { s with attempts := s.attempts + 1 }) := by
  refine ⟨?_, ?_, ?_, ?_, ?_⟩
  · intro h; simp [verify_code, h]
  · intro s hs hexp; simp [verify_code, hs, hexp]
  · intro s hs hexp hatt; simp [verify_code, hs, hexp, hatt]
  · intro s hs hexp hatt hcode
    have h3 : ¬ s.attempts ≥ 3 := by omega
    simp [verify_code, hs, hexp, h3, hcode]
  · intro s hs hexp hatt hcode
    have h3 : ¬ s.attempts ≥ 3 := by omega
    simp [verify_code, hs, hexp, h3, hcode]

/-- Witness for `verify_code_order`: on the empty state the `NoSession`
branch fires. -/
theorem verify_code_order_witness :
    verify_code initState 0 "p" "x" = (.NoSession, initState) :=
  (verify_code_order initState 0 "p" "x").1 rfl

/-- Counterexample to claim C2: starting from a fresh session (attempts = 0,
unexpired), the THIRD consecutive wrong code still returns `Mismatch`, not
`TooManyAttempts` as the claim states — the attempt-limit check precedes the
increment, so a fresh session absorbs three mismatches before lockout. -/
theorem third_wrong_code_mismatch_cex :
    (verify_code (verify_code (verify_code
        (generate_verification_code initState 0 0 "p").2
        0 "p" "000000").2 0 "p" "000000").2 0 "p" "000000").1 = .Mismatch ∧
    VerificationResult.Mismatch ≠ .TooManyAttempts := by
  exact ⟨rfl, by decide⟩

/-- Claim C2 (amended): for a fresh unexpired session, consecutive wrong
codes yield `Mismatch, Mismatch, Mismatch`, the fourth call returns
`TooManyAttempts` (deleting the session), and the fifth returns
`NoSession`. -/
theorem wrong_code_sequence (st : IVRState) (p : String) (s : Session)
    (t1 t2 t3 t4 t5 : Int) (w1 w2 w3 w4 w5 : String)
    (hs : st.sessions p = some s) (h0 : s.attempts = 0)
    (hw1 : w1 ≠ s.code) (hw2 : w2 ≠ s.code) (hw3 : w3 ≠ s.code)
    (he1 : ¬ t1 > s.expires) (he2 : ¬ t2 > s.expires) (he3 : ¬ t3 > s.expires)
    (he4 : ¬ t4 > s.expires) :
    (verify_code st t1 p w1).1 = .Mismatch ∧
    (verify_code (verify_code st t1 p w1).2 t2 p w2).1 = .Mismatch ∧
    (verify_code (verify_code (verify_code st t1 p w1).2 t2 p w2).2
        t3 p w3).1 = .Mismatch ∧
    (verify_code (verify_code (verify_code (verify_code st t1 p w1).2
        t2 p w2).2 t3 p w3).2 t4 p w4).1 = .TooManyAttempts ∧
    (verify_code (verify_code (verify_code (verify_code (verify_code st t1 p w1).2
        t2 p w2).2 t3 p w3).2 t4 p w4).2 t5 p w5).1 = .NoSession := by
  have e1 := vc_mismatch_step st t1 p w1 s hs he1 (by omega) hw1
  have hs1 : (verify_code st t1 p w1).2.sessions p =
      some { s with attempts := s.attempts + 1 } := by rw [e1]; simp
  have e2 := vc_mismatch_step _ t2 p w2 _ hs1 he2
    (show s.attempts + 1 < 3 by omega) hw2
  have hs2 : (verify_code (verify_code st t1 p w1).2 t2 p w2).2.sessions p =
      some { s with attempts := s.attempts + 1 + 1 } := by rw [e2]; simp
  have e3 := vc_mismatch_step _ t3 p w3 _ hs2 he3
    (show s.attempts + 1 + 1 < 3 by omega) hw3
  have hs3 : (verify_code (verify_code (verify_code st t1 p w1).2 t2 p w2).2
      t3 p w3).2.sessions p =
      some { s with attempts := s.attempts + 1 + 1 + 1 } := by rw [e3]; simp
  have e4 := vc_tma_step _ t4 p w4 _ hs3 he4
    (show s.attempts + 1 + 1 + 1 ≥ 3 by omega)
  have hs4 : (verify_code (verify_code (verify_code (verify_code st t1 p w1).2
      t2 p w2).2 t3 p w3).2 t4 p w4).2.sessions p = none := by rw [e4]; simp
  have e5 := vc_none_step _ t5 p w5 hs4
  exact ⟨by rw [e1], by rw [e2], by rw [e3], by rw [e4], by rw [e5]⟩

/-- Witness for `wrong_code_sequence`: a concrete fresh session run through
five wrong submissions. -/
theorem wrong_code_sequence_witness :
    (verify_code (generate_verification_code initState 0 0 "p").2 0 "p" "000000").1
      = .Mismatch ∧
    (verify_code (verify_code (generate_verification_code initState 0 0 "p").2
        0 "p" "000000").2 0 "p" "000000").1 = .Mismatch ∧
    (verify_code (verify_code (verify_code
        (generate_verification_code initState 0 0 "p").2
        0 "p" "000000").2 0 "p" "000000").2 0 "p" "000000").1 = .Mismatch ∧
    (verify_code (verify_code (verify_code (verify_code
        (generate_verification_code initState 0 0 "p").2
        0 "p" "000000").2 0 "p" "000000").2 0 "p" "000000").2
        0 "p" "000000").1 = .TooManyAttempts ∧
    (verify_code (verify_code (verify_code (verify_code (verify_code
        (generate_verification_code initState 0 0 "p").2
        0 "p" "000000").2 0 "p" "000000").2 0 "p" "000000").2
        0 "p" "000000").2 0 "p" "000000").1 = .NoSession :=
  wrong_code_sequence (generate_verification_code initState 0 0 "p").2 "p"
    { code := "100000", expires := 600, attempts := 0, created := 0 }
    0 0 0 0 0 "000000" "000000" "000000" "000000" "000000"
    rfl rfl (by decide) (by decide) (by decide)
    (by decide) (by decide) (by decide) (by decide)

/-- Claim C3: `check_rate_limit` denies and leaves the whole state unchanged
when an entry within 300 seconds exists; in every other case it stamps
`lastRequestAt = now` and allows.  Consequently an allowed call followed by
one within 5 minutes gives `true` then `false`, and a call 5 minutes or more
after the allowed one gives `true` again. -/
theorem check_rate_limit_contract (st : IVRState) (now : Int) (p : String) :
    (∀ last, st.rateLimits p = some last → now - last < 300 →
       check_rate_limit st now p = (false, st)) ∧
    ((∀ last, st.rateLimits p = some last → ¬ now - last < 300) →
       (check_rate_limit st now p).1 = true ∧
       (check_rate_limit st now p).2.rateLimits p = some now) ∧
    (∀ t t' t'', (check_rate_limit st t p).1 = true →
       t' - t < 300 → ¬ t'' - t < 300 →
       (check_rate_limit (check_rate_limit st t p).2 t' p).1 = false ∧
       (check_rate_limit (check_rate_limit (check_rate_limit st t p).2 t' p).2 t'' p).1
         = true) := by
  refine ⟨?_, ?_, ?_⟩
  · intro last h hlt; simp [check_rate_limit, h, hlt]
  · intro hall
    cases hrl : st.rateLimits p with
    | none => simp [check_rate_limit, hrl]
    | some last => simp [check_rate_limit, hrl, hall last hrl]
  · intro t t' t'' h1 h2 h3
    have hstamp := rl_true_stamp st t p h1
    have hsecond := rl_deny (check_rate_limit st t p).2 t' p t hstamp h2
    refine ⟨by rw [hsecond], ?_⟩
    rw [hsecond]
    exact (rl_allow (check_rate_limit st t p).2 t'' p
      (fun last hl => by rw [hstamp] at hl; cases hl; exact h3)).1

/-- Witness for `check_rate_limit_contract`: the empty state allows and
stamps. -/
theorem check_rate_limit_contract_witness :
    (check_rate_limit initState 0 "p").1 = true ∧
    (check_rate_limit initState 0 "p").2.rateLimits "p" = some 0 :=
  (check_rate_limit_contract initState 0 "p").2.1
    (fun last h => by simp [initState] at h)

/-- Claim C4: `generate_verification_code` always succeeds, yields a code
that is the decimal string of a number in `[100000, 999999]`, and
unconditionally overwrites the session record with `attempts = 0`,
`createdAt = now`, `expiresAt = now + 10 min` — any prior session for the
number, whatever its attempt count, is discarded. -/
theorem generate_verification_code_spec (st : IVRState) (now : Int)
    (rand : Nat) (p : String) :
    (∃ n, (generate_verification_code st now rand p).1 = toString n ∧
       100000 ≤ n ∧ n ≤ 999999) ∧
    (generate_verification_code st now rand p).2.sessions p =
      some { code := (generate_verification_code st now rand p).1,
             expires := now + 600, attempts := 0, created := now } := by
  constructor
  · refine ⟨genCode rand, rfl, ?_, ?_⟩
    · simp [genCode]
    · have := Nat.mod_lt rand (show 0 < 900000 by omega)
      simp [genCode]; omega
  · simp [generate_verification_code]

/-- Claim C5: after `generate_verification_code` returns code `C`, an
unexpired `verify_code` with `C` returns `Success` and deletes the session,
and a second `verify_code` with `C` returns `NoSession`. -/
theorem start_then_correct_code (st : IVRState) (t0 t1 t2 : Int) (rand : Nat)
    (p : String) (h : ¬ t1 > t0 + 600) :
    (verify_code (generate_verification_code st t0 rand p).2 t1 p
        (generate_verification_code st t0 rand p).1).1 = .Success ∧
    (verify_code (generate_verification_code st t0 rand p).2 t1 p
        (generate_verification_code st t0 rand p).1).2.sessions p = none ∧
    (verify_code (verify_code (generate_verification_code st t0 rand p).2 t1 p
        (generate_verification_code st t0 rand p).1).2 t2 p
        (generate_verification_code st t0 rand p).1).1 = .NoSession := by
  have hs : (generate_verification_code st t0 rand p).2.sessions p =
      some { code := (generate_verification_code st t0 rand p).1,
             expires := t0 + 600, attempts := 0, created := t0 } := by
    simp [generate_verification_code]
  have e1 := vc_success_step _ t1 p _ _ hs h (by show (0:Nat) < 3; omega) rfl
  have hs1 : (verify_code (generate_verification_code st t0 rand p).2 t1 p
      (generate_verification_code st t0 rand p).1).2.sessions p = none := by
    rw [e1]; simp
  exact ⟨by rw [e1], hs1, by rw [vc_none_step _ t2 p _ hs1]⟩

/-- Witness for `start_then_correct_code` at a concrete draw and times. -/
theorem start_then_correct_code_witness :
    (verify_code (generate_verification_code initState 0 0 "p").2 0 "p"
        (generate_verification_code initState 0 0 "p").1).1 = .Success ∧
    (verify_code (generate_verification_code initState 0 0 "p").2 0 "p"
        (generate_verification_code initState 0 0 "p").1).2.sessions "p" = none ∧
    (verify_code (verify_code (generate_verification_code initState 0 0 "p").2 0 "p"
        (generate_verification_code initState 0 0 "p").1).2 0 "p"
        (generate_verification_code initState 0 0 "p").1).1 = .NoSession :=
  start_then_correct_code initState 0 0 0 0 "p" (by decide)

/-- Claim C6: a session accessed past its deadline gives `Expired` and is
deleted, for every submitted code (even the stored one) and every value of
the attempts counter. -/
theorem expired_session_expired (st : IVRState) (now : Int) (p entered : String)
    (s : Session) (hs : st.sessions p = some s) (hexp : now > s.expires) :
    (verify_code st now p entered).1 = .Expired ∧
    (verify_code st now p entered).2.sessions p = none := by
  simp [verify_code, hs, hexp]

/-- Witness for `expired_session_expired`: a session created at time 0 and
checked at time 601 with its own correct code. -/
theorem expired_session_expired_witness :
    (verify_code (generate_verification_code initState 0 0 "p").2 601 "p"
        "100000").1 = .Expired ∧
    (verify_code (generate_verification_code initState 0 0 "p").2 601 "p"
        "100000").2.sessions "p" = none :=
  expired_session_expired (generate_verification_code initState 0 0 "p").2 601
    "p" "100000" { code := "100000", expires := 600, attempts := 0, created := 0 }
    rfl (by decide)

/-- Counterexample to claim C7: a denied verification-start request does NOT
overwrite the rate-limit entry.  After an allowed request at time 0, a second
request at time 100 is denied and the stored timestamp is still 0, not
100. -/
theorem deny_does_not_restamp_cex :
    (check_rate_limit (check_rate_limit initState 0 "p").2 100 "p").1 = false ∧
    (check_rate_limit (check_rate_limit initState 0 "p").2 100 "p").2.rateLimits "p"
      = some 0 ∧
    some (0 : Int) ≠ some (100 : Int) := by
  exact ⟨rfl, rfl, by decide⟩

/-- Claim C7 (amended): the rate-limit entry is created or overwritten
(`lastRequestAt = now`) exactly on the verification-start requests the rate
limiter allows; a denied request leaves the stores entirely unchanged. -/
theorem rate_limit_stamp_on_allow_only (st : IVRState) (now : Int) (p : String) :
    ((handle_incoming_call st now p).1 = true →
       (handle_incoming_call st now p).2.rateLimits p = some now) ∧
    ((handle_incoming_call st now p).1 = false →
       (handle_incoming_call st now p).2 = st) := by
  constructor
  · exact fun h => rl_true_stamp st now p h
  · intro h
    cases hrl : st.rateLimits p with
    | none =>
        have ht : (handle_incoming_call st now p).1 = true := by
          simp [handle_incoming_call, check_rate_limit, hrl]
        rw [ht] at h; simp at h
    | some last =>
        by_cases hc : now - last < 300
        · show (handle_incoming_call st now p).2 = st
          unfold handle_incoming_call
          rw [rl_deny st now p last hrl hc]
        · have ht : (handle_incoming_call st now p).1 = true := by
            simp [handle_incoming_call, check_rate_limit, hrl, hc]
          rw [ht] at h; simp at h

/-- Witness for `rate_limit_stamp_on_allow_only`: the first call from the
empty state is allowed and stamped. -/
theorem rate_limit_stamp_on_allow_only_witness :
    (handle_incoming_call initState 0 "p").2.rateLimits "p" = some 0 :=
  (rate_limit_stamp_on_allow_only initState 0 "p").1 rfl

/-- Claim C8: in every state reachable from the empty system by any sequence
of start-session and check-code operations, every stored session's attempts
counter lies between 0 and 3 inclusive. -/
theorem attempts_le_three_reachable (ops : List Op) (p : String) (s : Session)
    (h : (runOps initState ops).sessions p = some s) :
    0 ≤ s.attempts ∧ s.attempts ≤ 3 := by
  refine ⟨Nat.zero_le _, ?_⟩
  exact attemptsInv_runOps ops initState
    (fun q s hq => by simp [initState] at hq) p s h

/-- Witness for `attempts_le_three_reachable`: the session left by a single
start operation. -/
theorem attempts_le_three_reachable_witness :
    0 ≤ ({ code := "100000", expires := 600, attempts := 0, created := 0 } :
      Session).attempts ∧
    ({ code := "100000", expires := 600, attempts := 0, created := 0 } :
      Session).attempts ≤ 3 :=
  attempts_le_three_reachable [.start 0 0 "p"] "p" _ rfl

/-- Claim C9: on choice '1' the session is created before the SMS dispatch
is attempted, and a dispatch failure does not remove it: whatever `smsOk`
is (including `false`), the phone number holds a live session with
`attempts = 0` expiring 10 minutes after `now`, so no later `verify_code`
for that number can return `NoSession`. -/
theorem sms_failure_keeps_session (st : IVRState) (now : Int) (rand : Nat)
    (smsOk : Bool) (p : String) :
    (handle_verification_choice1 st now rand smsOk p).sessions p =
      some { code := toString (genCode rand), expires := now + 600,
             attempts := 0, created := now } ∧
    ∀ t entered,
      (verify_code (handle_verification_choice1 st now rand smsOk p)
          t p entered).1 ≠ .NoSession := by
  have hs : (handle_verification_choice1 st now rand smsOk p).sessions p =
      some { code := toString (genCode rand), expires := now + 600,
             attempts := 0, created := now } := by
    cases smsOk <;> simp [handle_verification_choice1, generate_verification_code]
  refine ⟨hs, ?_⟩
  intro t entered
  simp only [verify_code, hs]
  split_ifs <;> simp

/-- Witness for `sms_failure_keeps_session`: after a failed dispatch a check
still finds the session. -/
theorem sms_failure_keeps_session_witness :
    (verify_code (handle_verification_choice1 initState 0 0 false "p") 0 "p"
        "x").1 ≠ .NoSession :=
  (sms_failure_keeps_session initState 0 0 false "p").2 0 "x"

/-- Claim C10: the two stores are disjoint and operations are per-key:
`check_rate_limit` never changes the session store and changes no rate-limit
entry of another number; `generate_verification_code` and `verify_code`
never change the rate-limit store and change no session of another
number. -/
theorem stores_disjoint_per_key (st : IVRState) (now : Int) (rand : Nat)
    (p entered : String) :
    (∀ q, (check_rate_limit st now p).2.sessions q = st.sessions q) ∧
    (∀ q, q ≠ p → (check_rate_limit st now p).2.rateLimits q = st.rateLimits q) ∧
    (∀ q, (generate_verification_code st now rand p).2.rateLimits q
       = st.rateLimits q) ∧
    (∀ q, q ≠ p →
       (generate_verification_code st now rand p).2.sessions q = st.sessions q) ∧
    (∀ q, (verify_code st now p entered).2.rateLimits q = st.rateLimits q) ∧
    (∀ q, q ≠ p → (verify_code st now p entered).2.sessions q = st.sessions q) := by
  refine ⟨?_, ?_, ?_, ?_, ?_, ?_⟩
  · intro q
    unfold check_rate_limit
    cases st.rateLimits p <;> simp <;> split_ifs <;> rfl
  · intro q hq
    unfold check_rate_limit
    cases st.rateLimits p <;> simp [hq] <;> split_ifs <;> simp [hq]
  · intro q
    simp [generate_verification_code]
  · intro q hq
    simp [generate_verification_code, hq]
  · intro q
    unfold verify_code
    cases st.sessions p <;> simp <;> split_ifs <;> rfl
  · intro q hq
    unfold verify_code
    cases st.sessions p <;> simp [hq] <;> split_ifs <;> simp [hq]

/-- Witness for `stores_disjoint_per_key`: another number's rate-limit entry
survives a rate-limit check. -/
theorem stores_disjoint_per_key_witness :
    (check_rate_limit initState 0 "p").2.rateLimits "q"
      = initState.rateLimits "q" :=
  (stores_disjoint_per_key initState 0 0 "p" "x").2.1 "q" (by decide)

end IVR
